import Mathlib

/-!
Shallow embedding of `src/pd/client.rs` (PD RPC client: endpoint validation,
connection, randomized failover, bounded retry, response-header checking).

The network is modelled as an oracle (`Net`): `connect host port` yields either
a connection handle of an abstract type `H` or a transport error, and
`getMembers handle` yields either a `GetMembersResponse` or a transport error.
Rust panics (the `unwrap()` calls in `connect`) are modelled by an explicit
`panicked` outcome that propagates.  Network I/O is instrumented with an
explicit event trace so that "no I/O happened" claims are statable.
-/

/-- Result of a fallible Rust computation that may also panic
(`unwrap` on `None`/`Err`).  `err` carries the `box_err!` message. -/
inductive Outcome (α : Type) where
  | ok (a : α)
  | err (msg : String)
  | panicked
  deriving Repr, DecidableEq

/-- `pdpb.Error` inside a `ResponseHeader` (only its message is read). -/
structure PdError where
  message : String
  deriving Repr, DecidableEq

/-- `pdpb.ResponseHeader`: cluster id plus an optional embedded error.
Protobuf getters return the default (`0`) when the field is unset, so the
cluster id is modelled as a plain `Nat`; `has_error`/`get_error` are
modelled by the `Option`. -/
structure ResponseHeader where
  cluster_id : Nat := 0
  error : Option PdError := none
  deriving Repr, DecidableEq

/-- `pdpb.Member`: one PD replica; only `peer_urls` is read by this code. -/
structure Member where
  peer_urls : List String := []
  deriving Repr, DecidableEq

/-- `pdpb.GetMembersResponse`: header plus the member list. -/
structure GetMembersResponse where
  header : ResponseHeader := {}
  members : List Member := []
  deriving Repr, DecidableEq

/-- `pdpb.RequestHeader`: carries the cluster id stamped on every request. -/
structure RequestHeader where
  cluster_id : Nat := 0
  deriving Repr, DecidableEq

/-- One recorded network-I/O action. -/
inductive IoEvent where
  | connectAttempt (addr : String)
  | getMembersCall (addr : String)
  deriving Repr, DecidableEq

/-- Decidable equality for `Except`, so closed runs can be checked by
`decide`. -/
instance {ε α : Type} [DecidableEq ε] [DecidableEq α] : DecidableEq (Except ε α)
  | .ok a, .ok b =>
    if h : a = b then .isTrue (by rw [h])
    else .isFalse (by intro he; cases he; exact h rfl)
  | .ok _, .error _ => .isFalse (by intro h; cases h)
  | .error _, .ok _ => .isFalse (by intro h; cases h)
  | .error a, .error b =>
    if h : a = b then .isTrue (by rw [h])
    else .isFalse (by intro he; cases he; exact h rfl)

/-- The transport oracle: what the network does on a connection attempt to a
parsed `host`/`port`, and what a connected replica answers to `GetMembers`.
`H` is the abstract type of connection handles (`pdpb_grpc::PDClient`). -/
structure Net (H : Type) where
  connect : String → Nat → Except String H
  getMembers : H → Except String GetMembersResponse

/-- Rust `str::split(sep)` on a character list: split at every separator,
keeping empty pieces (splitting the empty string yields one empty piece). -/
def splitList (sep : Char) : List Char → List (List Char)
  | [] => [[]]
  | c :: rest =>
    if c = sep then [] :: splitList sep rest
    else
      match splitList sep rest with
      | h :: t => (c :: h) :: t
      | [] => [[c]]

/-- Rust `str::split(sep)` as a `String` operation. -/
def strSplit (sep : Char) (s : String) : List String :=
  (splitList sep s.data).map String.mk

/-- Rust `str::trim`: strip whitespace from both ends. -/
def strTrim (s : String) : String :=
  ⟨((s.data.dropWhile Char.isWhitespace).reverse.dropWhile Char.isWhitespace).reverse⟩

/-- Rust `str::is_empty`. -/
def strIsEmpty (s : String) : Bool :=
  s.data.isEmpty

/-- Rust `str::parse::<u16>()`: optional leading `+`, then at least one
decimal digit, and the value must fit in 16 bits; anything else is a parse
error. -/
def parsePort (s : String) : Option Nat :=
  let t := match s.data with
    | '+' :: rest => rest
    | cs => cs
  if t.isEmpty then none
  else if t.all Char.isDigit then
    let n := t.foldl (fun acc c => acc * 10 + (c.toNat - 48)) 0
    if n < 65536 then some n else none
  else none

/-- The address decomposition done at the top of `connect`:
`addr.split(':')`, first piece is the host, second must parse as a `u16`
port (extra pieces are ignored).  `none` means the corresponding `unwrap()`
in the source panics (no second piece, or the port fails to parse). -/
def parseAddr (addr : String) : Option (String × Nat) :=
  match strSplit ':' addr with
  | host :: portStr :: _ => (parsePort portStr).map (fun p => (host, p))
  | _ => none

/-- `connect(addr)` with its I/O trace: parse the address (panicking on a
malformed one, before any network I/O), then perform exactly one connection
attempt via the transport. -/
def connectT {H : Type} (net : Net H) (addr : String) : Outcome H × List IoEvent :=
  match parseAddr addr with
  | none => (.panicked, [])
  | some (host, port) =>
    match net.connect host port with
    | .ok c => (.ok c, [.connectAttempt addr])
    | .error e => (.err e, [.connectAttempt addr])

/-- `connect(addr)`: the result alone. -/
def connect {H : Type} (net : Net H) (addr : String) : Outcome H :=
  (connectT net addr).1

/-- `if opt.is_none() { opt = Some(v) }`: keep the first recorded value. -/
def firstSome {α : Type} (o o' : Option α) : Option α :=
  match o with
  | none => o'
  | some a => some a

/-- The loop state of `validate_endpoints`: the `HashSet` of endpoints seen
so far, the retained first client and first membership response, the sampled
cluster id, plus the instrumentation trace. -/
structure DiscState (H : Type) where
  seen : List String
  pd : Option H
  mem : Option GetMembersResponse
  cid : Option Nat
  trace : List IoEvent
  deriving Repr, DecidableEq

/-- An early exit of the `validate_endpoints` loop: an `Err` return or a
propagating panic. -/
inductive ScanExit where
  | fail (msg : String)
  | panicked
  deriving Repr, DecidableEq

/-- The `for ep in endpoints` loop body of `validate_endpoints`, iterated
over the remaining endpoints.  Mirrors the source exactly: duplicate check
first (an `Err` return), then `connect` (skip the endpoint on transport
error, propagate a panic), then `GetMembers` (skip on error), then the
cluster-id cross-check (an `Err` return on mismatch), then retention of the
first successful client and response. -/
def scan {H : Type} (net : Net H) :
    List String → DiscState H → Except (ScanExit × List IoEvent) (DiscState H)
  | [], st => .ok st
  | ep :: rest, st =>
    if ep ∈ st.seen then
      .error (.fail ("duplicate PD endpoint " ++ ep), st.trace)
    else
      let st1 : DiscState H := { st with seen := ep :: st.seen }
      match connectT net ep with
      | (.panicked, _) => .error (.panicked, st1.trace)
      | (.err _, evs) => scan net rest { st1 with trace := st1.trace ++ evs }
      | (.ok client, evs) =>
        let st2 : DiscState H :=
          { st1 with trace := st1.trace ++ evs ++ [.getMembersCall ep] }
        match net.getMembers client with
        | .error _ => scan net rest st2
        | .ok resp =>
          let cid := resp.header.cluster_id
          match st2.cid with
          | some sample =>
            if sample ≠ cid then
              .error (.fail ("PD response cluster_id mismatch, want " ++
                toString sample ++ ", got " ++ toString cid), st2.trace)
            else
              scan net rest
                { st2 with pd := firstSome st2.pd (some client),
                           mem := firstSome st2.mem (some resp) }
          | none =>
            scan net rest
              { st2 with cid := some cid,
                         pd := firstSome st2.pd (some client),
                         mem := firstSome st2.mem (some resp) }

/-- `validate_endpoints(endpoints)` with its I/O trace: empty-list check,
then the probing loop, then the final pairing of the retained client and
membership response. -/
def validate_endpointsT {H : Type} (net : Net H) (endpoints : List String) :
    Outcome (H × GetMembersResponse) × List IoEvent :=
  if endpoints.isEmpty then (.err "empty PD endpoints", [])
  else
    match scan net endpoints ⟨[], none, none, none, []⟩ with
    | .error (.fail msg, tr) => (.err msg, tr)
    | .error (.panicked, tr) => (.panicked, tr)
    | .ok st =>
      match st.pd, st.mem with
      | some c, some m => (.ok (c, m), st.trace)
      | _, _ => (.err "PD cluster failed to respond", st.trace)

/-- `validate_endpoints(endpoints)`: the result alone. -/
def validate_endpoints {H : Type} (net : Net H) (endpoints : List String) :
    Outcome (H × GetMembersResponse) :=
  (validate_endpointsT net endpoints).1

/-- The endpoint-string preprocessing in `RpcClient::new`: split on `,`,
trim whitespace, drop empty pieces. -/
def splitEndpoints (s : String) : List String :=
  ((strSplit ',' s).map strTrim).filter (fun t => !(strIsEmpty t))

/-- `RpcClient`: the membership snapshot captured at construction and the
current connection handle (the `RwLock<PDClient>` content). -/
structure RpcClient (H : Type) where
  members : GetMembersResponse
  inner : H
  deriving Repr, DecidableEq

/-- `RpcClient::new(endpoints)` with its I/O trace. -/
def RpcClient.newT {H : Type} (net : Net H) (endpoints : String) :
    Outcome (RpcClient H) × List IoEvent :=
  match validate_endpointsT net (splitEndpoints endpoints) with
  | (.ok (c, m), tr) => (.ok ⟨m, c⟩, tr)
  | (.err e, tr) => (.err e, tr)
  | (.panicked, tr) => (.panicked, tr)

/-- `RpcClient::header`: a fresh `RequestHeader` stamped with the cluster id
of the membership snapshot recorded at construction. -/
def RpcClient.header {H : Type} (cl : RpcClient H) : RequestHeader :=
  { cluster_id := cl.members.header.cluster_id }

/-- `PdClient::get_cluster_id` for `RpcClient`. -/
def get_cluster_id {H : Type} (cl : RpcClient H) : Outcome Nat :=
  .ok cl.members.header.cluster_id

/-- Result of `try_connect`: a live handle, the `Err` carrying (a rendering
of) the member list of the membership snapshot, or a propagating panic. -/
inductive TryConnectResult (H : Type) where
  | ok (h : H)
  | fail (members : List Member)
  | panicked
  deriving Repr, DecidableEq

/-- The inner `for ep in members[i].get_peer_urls()` loop of `try_connect`:
try each advertised address in listed order; `some` is an early return
(first successful connection, or a propagating panic), `none` means every
address of this member failed and the outer loop moves on. -/
def try_urls {H : Type} (net : Net H) : List String → Option (TryConnectResult H)
  | [] => none
  | ep :: rest =>
    match connect net ep with
    | .ok c => some (.ok c)
    | .err _ => try_urls net rest
    | .panicked => some (.panicked)

/-- The outer `for i in indexes` loop of `try_connect` over the shuffled
index list.  In the source every index is in range; `getD` with an empty
member is the total rendering of `members[i]`. -/
def try_connect_go {H : Type} (net : Net H) (ms : List Member) :
    List Nat → TryConnectResult H
  | [] => .fail ms
  | i :: rest =>
    match try_urls net (ms.getD i { peer_urls := [] }).peer_urls with
    | some r => r
    | none => try_connect_go net ms rest

/-- `try_connect(members)`.  The shuffled ordering produced by
`rand::thread_rng().shuffle` on `(0..members.len())` is passed in as
`indexes`; theorems quantify over all permutations of the index range. -/
def try_connect {H : Type} (net : Net H) (resp : GetMembersResponse)
    (indexes : List Nat) : TryConnectResult H :=
  try_connect_go net resp.members indexes

/-- The flat list of candidate addresses `try_connect` walks: for each
member index in shuffled order, that member's peer urls in listed order. -/
def memberUrls (ms : List Member) (indexes : List Nat) : List String :=
  indexes.flatMap (fun i => (ms.getD i { peer_urls := [] }).peer_urls)

/-- First successful connection over a flat candidate list (the
specification-side reading of `try_connect`'s nested loops). -/
def firstConn {H : Type} (net : Net H) (ms : List Member) :
    List String → TryConnectResult H
  | [] => .fail ms
  | ep :: rest =>
    match connect net ep with
    | .ok c => .ok c
    | .err _ => firstConn net ms rest
    | .panicked => .panicked

/-- `MAX_RETRY_COUNT`. -/
def MAX_RETRY_COUNT : Nat := 100

/-- The `for _ in 0..MAX_RETRY_COUNT` loop of `do_request`.
`k` is the attempt number, the second argument the remaining attempts,
`cli` the current connection (the `RwLock` content), and the final list
accumulates one entry per invocation of the caller-supplied operation `f`.
The transport outcome of an attempt may vary over time, so `f` and the
failover oracles (`nets`, `perms`) take the attempt number.  A failed
failover is followed by a 1s sleep in the source, which has no observable
effect in this model. -/
def do_request_go {H R : Type} (ms : GetMembersResponse) (nets : Nat → Net H)
    (perms : Nat → List Nat) (f : Nat → H → Except String R) :
    Nat → Nat → H → List (Except String R) → Outcome R × List (Except String R)
  | _, 0, _, tr => (.err "fail to request", tr)
  | k, n + 1, cli, tr =>
    match f k cli with
    | .ok r => (.ok r, tr ++ [.ok r])
    | .error e =>
      match try_connect (nets k) ms (perms k) with
      | .ok c => do_request_go ms nets perms f (k + 1) n c (tr ++ [.error e])
      | .fail _ => do_request_go ms nets perms f (k + 1) n cli (tr ++ [.error e])
      | .panicked => (.panicked, tr ++ [.error e])

/-- `do_request(client, f)` with the per-invocation outcome trace. -/
def do_requestT {H R : Type} (cl : RpcClient H) (nets : Nat → Net H)
    (perms : Nat → List Nat) (f : Nat → H → Except String R) :
    Outcome R × List (Except String R) :=
  do_request_go cl.members nets perms f 0 MAX_RETRY_COUNT cl.inner []

/-- `check_resp_header(header)`: succeed when no embedded error, otherwise
fail with the error's message. -/
def check_resp_header (h : ResponseHeader) : Except String Unit :=
  match h.error with
  | none => .ok ()
  | some e => .error e.message

/-- The shared tail of every façade operation: on a successful round-trip,
run `check_resp_header` on the response's header and extract the payload;
transport-level failure and panic pass through. -/
def facadeStep {Resp A : Type} (dr : Outcome Resp) (hdr : Resp → ResponseHeader)
    (extract : Resp → A) : Outcome A :=
  match dr with
  | .ok resp =>
    match check_resp_header (hdr resp) with
    | .ok _ => .ok (extract resp)
    | .error m => .err m
  | .err e => .err e
  | .panicked => .panicked

/-- `metapb.Store` (only carried through, never inspected). -/
structure Store where
  id : Nat := 0
  address : String := ""
  deriving Repr, DecidableEq

/-- `metapb.Region` (only carried through, never inspected). -/
structure Region where
  id : Nat := 0
  start_key : List Nat := []
  end_key : List Nat := []
  deriving Repr, DecidableEq

/-- `pdpb.GetStoreRequest`. -/
structure GetStoreRequest where
  header : RequestHeader := {}
  store_id : Nat := 0
  deriving Repr, DecidableEq

/-- `pdpb.GetStoreResponse`; the `store` field is an optional protobuf
field, `take_store` yields the default value when it is unset. -/
structure GetStoreResponse where
  header : ResponseHeader := {}
  store : Option Store := none
  deriving Repr, DecidableEq

/-- Protobuf `take_store`. -/
def GetStoreResponse.take_store (r : GetStoreResponse) : Store :=
  r.store.getD {}

/-- `pdpb.GetRegionRequest`. -/
structure GetRegionRequest where
  header : RequestHeader := {}
  region_key : List Nat := []
  deriving Repr, DecidableEq

/-- `pdpb.GetRegionResponse`. -/
structure GetRegionResponse where
  header : ResponseHeader := {}
  region : Option Region := none
  deriving Repr, DecidableEq

/-- Protobuf `take_region`: default value when the field is unset. -/
def GetRegionResponse.take_region (r : GetRegionResponse) : Region :=
  r.region.getD {}

/-- `pdpb.GetRegionByIDRequest`. -/
structure GetRegionByIDRequest where
  header : RequestHeader := {}
  region_id : Nat := 0
  deriving Repr, DecidableEq

/-- `pdpb.GetRegionByIDResponse`. -/
structure GetRegionByIDResponse where
  header : ResponseHeader := {}
  region : Option Region := none
  deriving Repr, DecidableEq

/-- Protobuf `has_region`. -/
def GetRegionByIDResponse.has_region (r : GetRegionByIDResponse) : Bool :=
  r.region.isSome

/-- Protobuf `take_region`: default value when the field is unset. -/
def GetRegionByIDResponse.take_region (r : GetRegionByIDResponse) : Region :=
  r.region.getD {}

/-- The request `get_store` builds once, before the retry loop: header
stamped via `RpcClient::header`, store id set. -/
def get_store_req {H : Type} (cl : RpcClient H) (store_id : Nat) : GetStoreRequest :=
  { header := cl.header, store_id := store_id }

/-- `PdClient::get_store`: build the request, run it through `do_request`
(the per-attempt transport behaviour is the oracle `call`), check the
response header, extract the store payload. -/
def get_storeT {H : Type} (cl : RpcClient H)
    (call : Nat → H → GetStoreRequest → Except String GetStoreResponse)
    (nets : Nat → Net H) (perms : Nat → List Nat) (store_id : Nat) :
    Outcome Store × List (Except String GetStoreResponse) :=
  let dr := do_requestT cl nets perms (fun k h => call k h (get_store_req cl store_id))
  (facadeStep dr.1 GetStoreResponse.header GetStoreResponse.take_store, dr.2)

/-- The request `get_region` builds once, before the retry loop. -/
def get_region_req {H : Type} (cl : RpcClient H) (key : List Nat) : GetRegionRequest :=
  { header := cl.header, region_key := key }

/-- `PdClient::get_region`: like `get_store`, with the payload taken
unconditionally via `take_region` (default region when the field is unset). -/
def get_regionT {H : Type} (cl : RpcClient H)
    (call : Nat → H → GetRegionRequest → Except String GetRegionResponse)
    (nets : Nat → Net H) (perms : Nat → List Nat) (key : List Nat) :
    Outcome Region × List (Except String GetRegionResponse) :=
  let dr := do_requestT cl nets perms (fun k h => call k h (get_region_req cl key))
  (facadeStep dr.1 GetRegionResponse.header GetRegionResponse.take_region, dr.2)

/-- The request `get_region_by_id` builds once, before the retry loop. -/
def get_region_by_id_req {H : Type} (cl : RpcClient H) (region_id : Nat) :
    GetRegionByIDRequest :=
  { header := cl.header, region_id := region_id }

/-- `PdClient::get_region_by_id`: like `get_store`, but the payload is
`Some(take_region)` when `has_region` and `None` otherwise. -/
def get_region_by_idT {H : Type} (cl : RpcClient H)
    (call : Nat → H → GetRegionByIDRequest → Except String GetRegionByIDResponse)
    (nets : Nat → Net H) (perms : Nat → List Nat) (region_id : Nat) :
    Outcome (Option Region) × List (Except String GetRegionByIDResponse) :=
  let dr := do_requestT cl nets perms
    (fun k h => call k h (get_region_by_id_req cl region_id))
  (facadeStep dr.1 GetRegionByIDResponse.header
    (fun resp => if resp.has_region then some resp.take_region else none), dr.2)

/-- Specification-side view of discovery: the successful probes of the given
endpoint list in input order — endpoints whose `connect` succeeds and whose
`GetMembers` call succeeds, paired with their response. -/
def successes {H : Type} (net : Net H) (eps : List String) :
    List (H × GetMembersResponse) :=
  eps.filterMap (fun ep =>
    match connect net ep with
    | .ok c =>
      match net.getMembers c with
      | .ok r => some (c, r)
      | .error _ => none
    | _ => none)

/-- The I/O events the discovery loop records while probing one endpoint:
the connection attempt (if the address parses), plus the `GetMembers` call
when the connection succeeded. -/
def epTrace {H : Type} (net : Net H) (ep : String) : List IoEvent :=
  match connectT net ep with
  | (.ok _, evs) => evs ++ [.getMembersCall ep]
  | (_, evs) => evs

/-! Concrete oracles used to exercise the model on closed inputs. -/

/-- A network where every connection succeeds and every replica reports
cluster id 7 with an empty member list. -/
def netU : Net Unit :=
  { connect := fun _ _ => .ok ()
    getMembers := fun _ => .ok { header := { cluster_id := 7 } } }

/-- A network with two reachable replicas that report different cluster
ids: host `a` yields handle 1 reporting cluster 1, every other host yields
handle 2 reporting cluster 2. -/
def net2 : Net Nat :=
  { connect := fun h _ => if h = "a" then .ok 1 else .ok 2
    getMembers := fun h =>
      if h = 1 then .ok { header := { cluster_id := 1 } }
      else .ok { header := { cluster_id := 2 } } }

/-- A network where every connection attempt fails. -/
def net5 : Net Unit :=
  { connect := fun _ _ => .error "down", getMembers := fun _ => .error "down" }

/-- A network where host `a` is down and every other host yields handle 2
reporting cluster 7. -/
def net7 : Net Nat :=
  { connect := fun h _ => if h = "a" then .error "down" else .ok 2
    getMembers := fun _ => .ok { header := { cluster_id := 7 } } }

/-- A client whose snapshot has an empty member list (failover can never
succeed). -/
def cl3 : RpcClient Unit := { members := {}, inner := () }

/-- A client recording cluster id 7. -/
def clU : RpcClient Unit := { members := { header := { cluster_id := 7 } }, inner := () }

/-- A transport behaviour whose `GetStore` round-trip always succeeds with
a response whose header embeds the error message `boom`. -/
def callStoreErr : Nat → Unit → GetStoreRequest → Except String GetStoreResponse :=
  fun _ _ _ => .ok { header := { cluster_id := 7, error := some { message := "boom" } } }

/-- A transport behaviour whose `GetRegionByID` round-trip always succeeds
with a clean header and no region payload. -/
def callRegionByIdNone : Nat → Unit → GetRegionByIDRequest → Except String GetRegionByIDResponse :=
  fun _ _ _ => .ok { header := { cluster_id := 7 } }

/-- A transport behaviour whose `GetRegion` round-trip always succeeds with
a clean header and an unset region field. -/
def callRegionNone : Nat → Unit → GetRegionRequest → Except String GetRegionResponse :=
  fun _ _ _ => .ok { header := { cluster_id := 7 } }

/-- A one-member snapshot whose only advertised address is `a:1`. -/
def resp5 : GetMembersResponse := { members := [{ peer_urls := ["a:1"] }] }

/-- The state of the discovery loop after probing `a:1` against `net2`. -/
def st2 : DiscState Nat :=
  { seen := ["a:1"], pd := some 1, mem := some { header := { cluster_id := 1 } }
    cid := some 1, trace := [.connectAttempt "a:1", .getMembersCall "a:1"] }

/-! Structural lemmas. -/

/-- Splitting the discovery loop at a list boundary. -/
theorem scan_append {H : Type} (net : Net H) (l1 l2 : List String) (st : DiscState H) :
    scan net (l1 ++ l2) st = (scan net l1 st).bind (fun s => scan net l2 s) := by
  induction l1 generalizing st with
  | nil => simp [scan, Except.bind]
  | cons ep rest ih =>
    simp only [List.cons_append, scan]
    split
    · rfl
    · split
      · rfl
      · exact ih _
      · split
        · exact ih _
        · split
          · split
            · rfl
            · exact ih _
          · exact ih _

/-- A completed pass of the discovery loop has inserted every processed
endpoint into the seen set. -/
theorem scan_ok_seen {H : Type} (net : Net H) (l : List String) (st st' : DiscState H)
    (h : scan net l st = .ok st') : st'.seen = l.reverse ++ st.seen := by
  induction l generalizing st with
  | nil =>
    simp only [scan] at h
    cases h
    simp
  | cons ep rest ih =>
    simp only [scan] at h
    split at h
    · cases h
    · split at h
      · cases h
      · have := ih _ h
        simpa [List.append_assoc] using this
      · split at h
        · have := ih _ h
          simpa [List.append_assoc] using this
        · split at h
          · split at h
            · cases h
            · have := ih _ h
              simpa [List.append_assoc] using this
          · have := ih _ h
            simpa [List.append_assoc] using this

/-- Reading off `validate_endpoints` when its loop exits early. -/
theorem validate_of_scan_error {H : Type} (net : Net H) (eps : List String)
    (ex : ScanExit) (tr : List IoEvent) (hne : eps ≠ [])
    (h : scan net eps ⟨[], none, none, none, []⟩ = .error (ex, tr)) :
    validate_endpointsT net eps =
      ((match ex with
        | ScanExit.fail m => Outcome.err m
        | ScanExit.panicked => Outcome.panicked), tr) := by
  have hie : eps.isEmpty = false := by
    cases eps with
    | nil => exact absurd rfl hne
    | cons a l => rfl
  cases ex <;> simp [validate_endpointsT, hie, h]

/-- Reading off `validate_endpoints` when its loop completes. -/
theorem validate_of_scan_ok {H : Type} (net : Net H) (eps : List String)
    (st : DiscState H) (hne : eps ≠ [])
    (h : scan net eps ⟨[], none, none, none, []⟩ = .ok st) :
    validate_endpointsT net eps =
      ((match st.pd, st.mem with
        | some c, some m => Outcome.ok (c, m)
        | _, _ => Outcome.err "PD cluster failed to respond"), st.trace) := by
  have hie : eps.isEmpty = false := by
    cases eps with
    | nil => exact absurd rfl hne
    | cons a l => rfl
  cases hpd : st.pd <;> cases hmem : st.mem <;>
    simp [validate_endpointsT, hie, h, hpd, hmem]

/-- **C1** (amended): for an address list containing a duplicate entry,
construction never succeeds; once the duplicate entry is reached the loop
returns the duplicate-endpoint configuration error, and no network I/O
happens at or after the duplicate — the I/O trace of the whole run equals
the trace of probing only the endpoints before the duplicate (for which
connect and GetMembers calls may well have been issued). -/
theorem claim1_thm {H : Type} (net : Net H) (pre : List String) (d : String)
    (post : List String) (hd : d ∈ pre) :
    (∀ x, (validate_endpointsT net (pre ++ d :: post)).1 ≠ .ok x) ∧
    (validate_endpointsT net (pre ++ d :: post)).2 = (validate_endpointsT net pre).2 ∧
    (∀ st, scan net pre ⟨[], none, none, none, []⟩ = .ok st →
      (validate_endpointsT net (pre ++ d :: post)).1 =
        .err ("duplicate PD endpoint " ++ d)) := by
  have hpre : pre ≠ [] := List.ne_nil_of_mem hd
  have hne : pre ++ d :: post ≠ [] := by simp
  cases hscan : scan net pre ⟨[], none, none, none, []⟩ with
  | error e =>
    obtain ⟨ex, tr⟩ := e
    have hfull : scan net (pre ++ d :: post) ⟨[], none, none, none, []⟩
        = .error (ex, tr) := by
      rw [scan_append, hscan]; rfl
    have h1 := validate_of_scan_error net (pre ++ d :: post) ex tr hne hfull
    have h2 := validate_of_scan_error net pre ex tr hpre hscan
    refine ⟨?_, ?_, ?_⟩
    · intro x hx
      rw [h1] at hx
      cases ex <;> simp at hx
    · rw [h1, h2]
    · intro st h
      simp at h
  | ok st =>
    have hseen : d ∈ st.seen := by
      rw [scan_ok_seen net pre _ st hscan]
      exact List.mem_append_left _ (List.mem_reverse.mpr hd)
    have hstep : scan net (d :: post) st =
        .error (.fail ("duplicate PD endpoint " ++ d), st.trace) := by
      simp [scan, hseen]
    have hfull : scan net (pre ++ d :: post) ⟨[], none, none, none, []⟩
        = .error (.fail ("duplicate PD endpoint " ++ d), st.trace) := by
      rw [scan_append, hscan]
      simpa [Except.bind] using hstep
    have h1 := validate_of_scan_error net (pre ++ d :: post) _ _ hne hfull
    have h2 := validate_of_scan_ok net pre st hpre hscan
    refine ⟨?_, ?_, ?_⟩
    · intro x hx
      rw [h1] at hx
      simp at hx
    · rw [h1, h2]
    · intro st' _
      rw [h1]

/-- **C1** counterexample: constructing with `10.0.0.1:2379,10.0.0.1:2379`
does fail with the duplicate-endpoint configuration error, but a connection
attempt and a `GetMembers` call were issued (for the first occurrence)
before the failure — refuting "it does so without attempting any network
I/O (no connect and no GetMembers call is issued before the failure)". -/
theorem claim1_counterexample :
    (RpcClient.newT netU "10.0.0.1:2379,10.0.0.1:2379").1 =
      .err "duplicate PD endpoint 10.0.0.1:2379" ∧
    (RpcClient.newT netU "10.0.0.1:2379,10.0.0.1:2379").2 =
      [.connectAttempt "10.0.0.1:2379", .getMembersCall "10.0.0.1:2379"] := by
  exact ⟨by decide, by decide⟩

/-- Witness for `claim1_thm` at a concrete duplicate list. -/
theorem claim1_witness :
    (validate_endpointsT netU ["a:1", "a:1", "b:2"]).1 =
      .err ("duplicate PD endpoint " ++ "a:1") :=
  (claim1_thm netU ["a:1"] "a:1" ["b:2"] (by decide)).2.2
    ⟨["a:1"], some (), some { header := { cluster_id := 7 } }, some 7,
      [.connectAttempt "a:1", .getMembersCall "a:1"]⟩ (by decide)


/-! Step equations, read off the definitions. -/

theorem firstSome_some {α : Type} (a : α) (o : Option α) :
    firstSome (some a) o = some a := rfl

theorem firstSome_none {α : Type} (o : Option α) :
    firstSome none o = o := rfl

/-- `connect` panics before any I/O on an unparsable address. -/
theorem connectT_parse_none {H : Type} (net : Net H) (ep : String)
    (hp : parseAddr ep = none) : connectT net ep = (.panicked, []) := by
  unfold connectT
  rw [hp]

/-- `connect` on a parsable address whose transport attempt succeeds. -/
theorem connectT_parse_ok {H : Type} (net : Net H) (ep host : String)
    (port : Nat) (c : H) (hp : parseAddr ep = some (host, port))
    (hc : net.connect host port = .ok c) :
    connectT net ep = (.ok c, [.connectAttempt ep]) := by
  unfold connectT
  simp [hp, hc]

/-- `connect` on a parsable address whose transport attempt fails. -/
theorem connectT_parse_err {H : Type} (net : Net H) (ep host : String)
    (port : Nat) (e : String) (hp : parseAddr ep = some (host, port))
    (hc : net.connect host port = .error e) :
    connectT net ep = (.err e, [.connectAttempt ep]) := by
  unfold connectT
  simp [hp, hc]

/-- When `connect` returns a handle, its trace is exactly one connection
attempt. -/
theorem connectT_eq_ok {H : Type} (net : Net H) (ep : String) (c : H)
    (h : connect net ep = .ok c) :
    connectT net ep = (.ok c, [.connectAttempt ep]) := by
  cases hp : parseAddr ep with
  | none =>
    unfold connect at h
    rw [connectT_parse_none net ep hp] at h
    simp at h
  | some pr =>
    obtain ⟨host, port⟩ := pr
    cases hc : net.connect host port with
    | ok c2 =>
      have hT := connectT_parse_ok net ep host port c2 hp hc
      unfold connect at h
      rw [hT] at h
      simp at h
      rw [← h]
      exact hT
    | error e =>
      unfold connect at h
      rw [connectT_parse_err net ep host port e hp hc] at h
      simp at h

/-- Discovery-loop step: duplicate endpoint. -/
theorem scan_cons_dup {H : Type} (net : Net H) (ep : String) (rest : List String)
    (st : DiscState H) (hsin : ep ∈ st.seen) :
    scan net (ep :: rest) st =
      .error (.fail ("duplicate PD endpoint " ++ ep), st.trace) := by
  simp [scan, hsin]

/-- Discovery-loop step: `connect` panics. -/
theorem scan_cons_panic {H : Type} (net : Net H) (ep : String) (rest : List String)
    (st : DiscState H) (evs : List IoEvent) (hsin : ep ∉ st.seen)
    (hct : connectT net ep = (.panicked, evs)) :
    scan net (ep :: rest) st = .error (.panicked, st.trace) := by
  simp [scan, hsin, hct]

/-- Discovery-loop step: `connect` fails, endpoint skipped. -/
theorem scan_cons_connerr {H : Type} (net : Net H) (ep : String) (rest : List String)
    (st : DiscState H) (e : String) (evs : List IoEvent) (hsin : ep ∉ st.seen)
    (hct : connectT net ep = (.err e, evs)) :
    scan net (ep :: rest) st =
      scan net rest { st with seen := ep :: st.seen, trace := st.trace ++ evs } := by
  simp [scan, hsin, hct]

/-- Discovery-loop step: `GetMembers` fails, endpoint skipped. -/
theorem scan_cons_memerr {H : Type} (net : Net H) (ep : String) (rest : List String)
    (st : DiscState H) (client : H) (e : String) (evs : List IoEvent)
    (hsin : ep ∉ st.seen) (hct : connectT net ep = (.ok client, evs))
    (hgm : net.getMembers client = .error e) :
    scan net (ep :: rest) st =
      scan net rest
        { st with seen := ep :: st.seen,
                  trace := st.trace ++ evs ++ [.getMembersCall ep] } := by
  simp [scan, hsin, hct, hgm]

/-- Discovery-loop step: successful probe disagreeing with the sampled
cluster id — the whole discovery fails. -/
theorem scan_cons_mismatch {H : Type} (net : Net H) (ep : String)
    (rest : List String) (st : DiscState H) (client : H)
    (resp : GetMembersResponse) (s : Nat) (evs : List IoEvent)
    (hsin : ep ∉ st.seen) (hct : connectT net ep = (.ok client, evs))
    (hgm : net.getMembers client = .ok resp) (hcid : st.cid = some s)
    (hne : s ≠ resp.header.cluster_id) :
    scan net (ep :: rest) st =
      .error (.fail ("PD response cluster_id mismatch, want " ++ toString s ++
          ", got " ++ toString resp.header.cluster_id),
        st.trace ++ evs ++ [.getMembersCall ep]) := by
  simp [scan, hsin, hct, hgm, hcid, hne]

/-- Discovery-loop step: successful probe agreeing with the sampled id. -/
theorem scan_cons_agree {H : Type} (net : Net H) (ep : String)
    (rest : List String) (st : DiscState H) (client : H)
    (resp : GetMembersResponse) (s : Nat) (evs : List IoEvent)
    (hsin : ep ∉ st.seen) (hct : connectT net ep = (.ok client, evs))
    (hgm : net.getMembers client = .ok resp) (hcid : st.cid = some s)
    (heq : s = resp.header.cluster_id) :
    scan net (ep :: rest) st =
      scan net rest
        { st with seen := ep :: st.seen,
                  trace := st.trace ++ evs ++ [.getMembersCall ep],
                  pd := firstSome st.pd (some client),
                  mem := firstSome st.mem (some resp) } := by
  simp [scan, hsin, hct, hgm, hcid, heq]

/-- Discovery-loop step: first successful probe — the cluster id is
sampled. -/
theorem scan_cons_first {H : Type} (net : Net H) (ep : String)
    (rest : List String) (st : DiscState H) (client : H)
    (resp : GetMembersResponse) (evs : List IoEvent)
    (hsin : ep ∉ st.seen) (hct : connectT net ep = (.ok client, evs))
    (hgm : net.getMembers client = .ok resp) (hcid : st.cid = none) :
    scan net (ep :: rest) st =
      scan net rest
        { st with seen := ep :: st.seen,
                  trace := st.trace ++ evs ++ [.getMembersCall ep],
                  cid := some resp.header.cluster_id,
                  pd := firstSome st.pd (some client),
                  mem := firstSome st.mem (some resp) } := by
  simp [scan, hsin, hct, hgm, hcid]

/-- Preservation: throughout the discovery loop, whenever a membership
response has been retained, the sampled cluster id is exactly that
response's cluster id (so the expected id is the first retained response's
id). -/
theorem scan_mem_cid {H : Type} (net : Net H) (l : List String)
    (st st' : DiscState H)
    (hinv : ∀ m, st.mem = some m → st.cid = some m.header.cluster_id)
    (h : scan net l st = .ok st') :
    ∀ m, st'.mem = some m → st'.cid = some m.header.cluster_id := by
  induction l generalizing st with
  | nil =>
    simp only [scan] at h
    cases h
    exact hinv
  | cons ep rest ih =>
    by_cases hsin : ep ∈ st.seen
    · rw [scan_cons_dup net ep rest st hsin] at h
      cases h
    · cases hct : connectT net ep with
      | mk o evs =>
        cases o with
        | panicked =>
          rw [scan_cons_panic net ep rest st evs hsin hct] at h
          cases h
        | err e =>
          rw [scan_cons_connerr net ep rest st e evs hsin hct] at h
          refine ih _ ?_ h
          exact hinv
        | ok client =>
          cases hgm : net.getMembers client with
          | error e =>
            rw [scan_cons_memerr net ep rest st client e evs hsin hct hgm] at h
            refine ih _ ?_ h
            exact hinv
          | ok resp =>
            cases hcid : st.cid with
            | some s =>
              by_cases hse : s = resp.header.cluster_id
              · rw [scan_cons_agree net ep rest st client resp s evs hsin hct
                  hgm hcid hse] at h
                refine ih _ ?_ h
                intro m hm
                cases hmem : st.mem with
                | some m0 =>
                  simp only [hmem, firstSome_some] at hm
                  cases hm
                  have h2 := hinv _ hmem
                  rw [hcid] at h2
                  simpa [hcid] using h2
                | none =>
                  simp only [hmem, firstSome_none] at hm
                  cases hm
                  simp [hcid, hse]
              · rw [scan_cons_mismatch net ep rest st client resp s evs hsin hct
                  hgm hcid hse] at h
                cases h
            | none =>
              rw [scan_cons_first net ep rest st client resp evs hsin hct
                hgm hcid] at h
              refine ih _ ?_ h
              intro m hm
              cases hmem : st.mem with
              | some m0 =>
                have h2 := hinv _ hmem
                rw [hcid] at h2
                cases h2
              | none =>
                simp only [hmem, firstSome_none] at hm
                cases hm
                rfl

/-- **C2**: the cluster id recorded during discovery is exactly the id of
the first retained (first successful) membership response, and when a later
successful membership response reports a different id, `validate_endpoints`
fails the whole discovery right there: it returns the mismatch error — no
connection handle, no membership snapshot — and the I/O trace stops at the
mismatching endpoint. -/
theorem claim2_thm {H : Type} (net : Net H) (pre : List String) (ep : String)
    (post : List String) (st : DiscState H) (s : Nat) (client : H)
    (resp : GetMembersResponse)
    (hscan : scan net pre ⟨[], none, none, none, []⟩ = .ok st)
    (hcid : st.cid = some s)
    (hfresh : ep ∉ st.seen)
    (hconn : connect net ep = .ok client)
    (hmem : net.getMembers client = .ok resp)
    (hne : s ≠ resp.header.cluster_id) :
    (∀ m, st.mem = some m → m.header.cluster_id = s) ∧
    validate_endpointsT net (pre ++ ep :: post) =
      (.err ("PD response cluster_id mismatch, want " ++ toString s ++ ", got " ++
        toString resp.header.cluster_id), st.trace ++ epTrace net ep) := by
  have hct := connectT_eq_ok net ep client hconn
  have hstep := scan_cons_mismatch net ep post st client resp s
    [.connectAttempt ep] hfresh hct hmem hcid hne
  have hne2 : pre ++ ep :: post ≠ [] := by simp
  have hfull : scan net (pre ++ ep :: post) ⟨[], none, none, none, []⟩
      = .error (.fail ("PD response cluster_id mismatch, want " ++ toString s ++
          ", got " ++ toString resp.header.cluster_id),
        st.trace ++ [IoEvent.connectAttempt ep] ++ [IoEvent.getMembersCall ep]) := by
    rw [scan_append, hscan]
    simpa [Except.bind] using hstep
  constructor
  · intro m hm
    have h2 := scan_mem_cid net pre _ st (by intro m0 h0; simp at h0) hscan m hm
    rw [hcid] at h2
    injection h2 with h3
    exact h3.symm
  · have hv := validate_of_scan_error net (pre ++ ep :: post) _ _ hne2 hfull
    rw [hv]
    have htr : epTrace net ep =
        [IoEvent.connectAttempt ep] ++ [IoEvent.getMembersCall ep] := by
      simp [epTrace, hct]
    rw [htr]
    simp [List.append_assoc]

/-- Witness for `claim2_thm`: two reachable simulated endpoints reporting
cluster ids 1 and 2 — discovery fails with the mismatch error. -/
theorem claim2_witness :
    validate_endpointsT net2 ["a:1", "b:1"] =
      (.err ("PD response cluster_id mismatch, want " ++ toString 1 ++ ", got " ++
        toString 2), st2.trace ++ epTrace net2 "b:1") := by
  exact (claim2_thm net2 ["a:1"] "b:1" [] st2 1 2 { header := { cluster_id := 2 } }
    (by decide) (by decide) (by decide) (by decide) (by decide) (by decide)).2

/-- The retry loop's accumulator argument is a pure prefix of its final
trace. -/
theorem do_request_go_trace {H R : Type} (ms : GetMembersResponse)
    (nets : Nat → Net H) (perms : Nat → List Nat) (f : Nat → H → Except String R)
    (n : Nat) : ∀ (k : Nat) (cli : H) (tr : List (Except String R)),
    do_request_go ms nets perms f k n cli tr =
      ((do_request_go ms nets perms f k n cli []).1,
        tr ++ (do_request_go ms nets perms f k n cli []).2) := by
  induction n with
  | zero => intro k cli tr; simp [do_request_go]
  | succ n ih =>
    intro k cli tr
    cases hf : f k cli with
    | ok r => simp [do_request_go, hf]
    | error e =>
      cases htc : try_connect (nets k) ms (perms k) with
      | ok c =>
        simp only [do_request_go, hf, htc, List.nil_append]
        rw [ih (k + 1) c (tr ++ [Except.error e]), ih (k + 1) c [Except.error e]]
        simp [List.append_assoc]
      | fail m =>
        simp only [do_request_go, hf, htc, List.nil_append]
        rw [ih (k + 1) cli (tr ++ [Except.error e]), ih (k + 1) cli [Except.error e]]
        simp [List.append_assoc]
      | panicked => simp [do_request_go, hf, htc]

/-- The retry loop invokes the operation at most once per remaining
attempt. -/
theorem do_request_go_len {H R : Type} (ms : GetMembersResponse)
    (nets : Nat → Net H) (perms : Nat → List Nat) (f : Nat → H → Except String R)
    (n : Nat) : ∀ (k : Nat) (cli : H),
    (do_request_go ms nets perms f k n cli []).2.length ≤ n := by
  induction n with
  | zero => intro k cli; simp [do_request_go]
  | succ n ih =>
    intro k cli
    cases hf : f k cli with
    | ok r => simp [do_request_go, hf]
    | error e =>
      cases htc : try_connect (nets k) ms (perms k) with
      | ok c =>
        simp only [do_request_go, hf, htc, List.nil_append]
        rw [do_request_go_trace ms nets perms f n (k + 1) c [Except.error e]]
        have := ih (k + 1) c
        simp only [List.length_append, List.length_singleton]
        omega
      | fail m =>
        simp only [do_request_go, hf, htc, List.nil_append]
        rw [do_request_go_trace ms nets perms f n (k + 1) cli [Except.error e]]
        have := ih (k + 1) cli
        simp only [List.length_append, List.length_singleton]
        omega
      | panicked => simp [do_request_go, hf, htc]

/-- When the retry loop returns a result, the last recorded invocation is
the successful one and every earlier invocation failed. -/
theorem do_request_go_ok_shape {H R : Type} (ms : GetMembersResponse)
    (nets : Nat → Net H) (perms : Nat → List Nat) (f : Nat → H → Except String R)
    (n : Nat) : ∀ (k : Nat) (cli : H) (r : R),
    (do_request_go ms nets perms f k n cli []).1 = .ok r →
    (do_request_go ms nets perms f k n cli []).2.getLast? = some (.ok r) ∧
    ∀ x ∈ (do_request_go ms nets perms f k n cli []).2.dropLast,
      ∃ e, x = .error e := by
  induction n with
  | zero => intro k cli r h; simp [do_request_go] at h
  | succ n ih =>
    intro k cli r h
    cases hf : f k cli with
    | ok r2 =>
      simp only [do_request_go, hf, List.nil_append] at h ⊢
      cases h
      simp
    | error e =>
      cases htc : try_connect (nets k) ms (perms k) with
      | ok c =>
        simp only [do_request_go, hf, htc, List.nil_append] at h ⊢
        rw [do_request_go_trace ms nets perms f n (k + 1) c [Except.error e]] at h ⊢
        simp only at h
        have h2 := ih (k + 1) c r h
        have hnn : (do_request_go ms nets perms f (k + 1) n c []).2 ≠ [] := by
          intro hnil
          rw [hnil] at h2
          simp at h2
        constructor
        · simp only [List.getLast?_append_of_ne_nil _ hnn]
          exact h2.1
        · simp only [List.dropLast_append_of_ne_nil _ hnn]
          intro x hx
          rcases List.mem_append.mp hx with hx1 | hx2
          · exact ⟨e, by simpa using hx1⟩
          · exact h2.2 x hx2
      | fail m =>
        simp only [do_request_go, hf, htc, List.nil_append] at h ⊢
        rw [do_request_go_trace ms nets perms f n (k + 1) cli [Except.error e]] at h ⊢
        simp only at h
        have h2 := ih (k + 1) cli r h
        have hnn : (do_request_go ms nets perms f (k + 1) n cli []).2 ≠ [] := by
          intro hnil
          rw [hnil] at h2
          simp at h2
        constructor
        · simp only [List.getLast?_append_of_ne_nil _ hnn]
          exact h2.1
        · simp only [List.dropLast_append_of_ne_nil _ hnn]
          intro x hx
          rcases List.mem_append.mp hx with hx1 | hx2
          · exact ⟨e, by simpa using hx1⟩
          · exact h2.2 x hx2
      | panicked =>
        simp only [do_request_go, hf, htc, List.nil_append] at h
        cases h

/-- When every invocation of the operation fails and no reconnection
panics, the retry loop consumes every attempt and fails. -/
theorem do_request_go_allfail {H R : Type} (ms : GetMembersResponse)
    (nets : Nat → Net H) (perms : Nat → List Nat) (f : Nat → H → Except String R)
    (hf : ∀ k h, ∃ e, f k h = .error e)
    (hnp : ∀ k, try_connect (nets k) ms (perms k) ≠ .panicked)
    (n : Nat) : ∀ (k : Nat) (cli : H),
    (do_request_go ms nets perms f k n cli []).1 = .err "fail to request" ∧
    (do_request_go ms nets perms f k n cli []).2.length = n := by
  induction n with
  | zero => intro k cli; simp [do_request_go]
  | succ n ih =>
    intro k cli
    obtain ⟨e, he⟩ := hf k cli
    cases htc : try_connect (nets k) ms (perms k) with
    | ok c =>
      simp only [do_request_go, he, htc, List.nil_append]
      rw [do_request_go_trace ms nets perms f n (k + 1) c [Except.error e]]
      have h2 := ih (k + 1) c
      simp [h2.1, h2.2]
    | fail m =>
      simp only [do_request_go, he, htc, List.nil_append]
      rw [do_request_go_trace ms nets perms f n (k + 1) cli [Except.error e]]
      have h2 := ih (k + 1) cli
      simp [h2.1, h2.2]
    | panicked => exact absurd htc (hnp k)

/-- **C3**: `do_request` invokes the caller-supplied operation at most
`MAX_RETRY_COUNT = 100` times; when it returns a result, the last
invocation is the successful one and no further iteration happened (every
other recorded invocation preceded it and failed); and when every
invocation fails (and no reconnection attempt panics) it stops after
exactly 100 invocations with the retry-exhaustion error `fail to request`
instead of looping forever. -/
theorem claim3_thm {H R : Type} (cl : RpcClient H) (nets : Nat → Net H)
    (perms : Nat → List Nat) (f : Nat → H → Except String R) :
    MAX_RETRY_COUNT = 100 ∧
    (do_requestT cl nets perms f).2.length ≤ MAX_RETRY_COUNT ∧
    (∀ r, (do_requestT cl nets perms f).1 = .ok r →
      (do_requestT cl nets perms f).2.getLast? = some (.ok r) ∧
      ∀ x ∈ (do_requestT cl nets perms f).2.dropLast, ∃ e, x = .error e) ∧
    ((∀ k h, ∃ e, f k h = .error e) →
     (∀ k, try_connect (nets k) cl.members (perms k) ≠ .panicked) →
      (do_requestT cl nets perms f).1 = .err "fail to request" ∧
      (do_requestT cl nets perms f).2.length = MAX_RETRY_COUNT) := by
  refine ⟨rfl, ?_, ?_, ?_⟩
  · exact do_request_go_len cl.members nets perms f MAX_RETRY_COUNT 0 cl.inner
  · intro r h
    exact do_request_go_ok_shape cl.members nets perms f MAX_RETRY_COUNT 0
      cl.inner r h
  · intro hf hnp
    exact do_request_go_allfail cl.members nets perms f hf hnp MAX_RETRY_COUNT 0
      cl.inner

/-- Witness for `claim3_thm`: an operation that always fails against an
empty membership snapshot — the executor returns the exhaustion error. -/
theorem claim3_witness :
    (do_requestT cl3 (fun _ => netU) (fun _ => [])
      (fun _ _ => (Except.error "boom" : Except String Unit))).1 =
        .err "fail to request" ∧
    (do_requestT cl3 (fun _ => netU) (fun _ => [])
      (fun _ _ => (Except.error "boom" : Except String Unit))).2.length =
        MAX_RETRY_COUNT := by
  exact (claim3_thm cl3 (fun _ => netU) (fun _ => [])
      (fun _ _ => (Except.error "boom" : Except String Unit))).2.2.2
    (fun _ _ => ⟨"boom", rfl⟩)
    (fun k h => by simp [try_connect, try_connect_go] at h)

/-- **C4**: for any façade operation (any response type, any header
accessor, any payload extractor) whose transport round-trip succeeded, a
header carrying an embedded error makes the caller observe a failure with
that error's message verbatim and never a payload, while a clean header
passes the check and the payload is extracted; instantiated concretely on
`get_store`. -/
theorem claim4_thm (Resp A H : Type) (hdr : Resp → ResponseHeader)
    (extract : Resp → A) (r0 : Resp) (cl : RpcClient H)
    (call : Nat → H → GetStoreRequest → Except String GetStoreResponse)
    (nets : Nat → Net H) (perms : Nat → List Nat) (sid : Nat)
    (resp : GetStoreResponse) :
    (((hdr r0).error = none →
        check_resp_header (hdr r0) = .ok () ∧
        facadeStep (.ok r0) hdr extract = .ok (extract r0)) ∧
     (∀ e, (hdr r0).error = some e →
        facadeStep (.ok r0) hdr extract = .err e.message)) ∧
    ((do_requestT cl nets perms (fun k h => call k h (get_store_req cl sid))).1
        = .ok resp →
      ((resp.header.error = none →
        (get_storeT cl call nets perms sid).1 = .ok resp.take_store) ∧
       (∀ e, resp.header.error = some e →
        (get_storeT cl call nets perms sid).1 = .err e.message))) := by
  constructor
  · constructor
    · intro hn
      constructor
      · simp [check_resp_header, hn]
      · simp [facadeStep, check_resp_header, hn]
    · intro e he
      simp [facadeStep, check_resp_header, he]
  · intro hdr2
    constructor
    · intro hn
      simp [get_storeT, hdr2, facadeStep, check_resp_header, hn]
    · intro e he
      simp [get_storeT, hdr2, facadeStep, check_resp_header, he]

/-- Witness for `claim4_thm`: a round-trip that succeeds with an embedded
`boom` error — the caller sees the error message, not a store payload. -/
theorem claim4_witness :
    (get_storeT clU callStoreErr (fun _ => netU) (fun _ => []) 5).1 =
      .err "boom" ∧
    facadeStep
      (.ok ({ header := { cluster_id := 7, error := some { message := "boom" } } }
        : GetStoreResponse))
      GetStoreResponse.header GetStoreResponse.take_store = .err "boom" := by
  have h := claim4_thm GetStoreResponse Store Unit GetStoreResponse.header
    GetStoreResponse.take_store
    { header := { cluster_id := 7, error := some { message := "boom" } } }
    clU callStoreErr (fun _ => netU) (fun _ => []) 5
    { header := { cluster_id := 7, error := some { message := "boom" } } }
  constructor
  · exact (h.2 (by decide)).2 { message := "boom" } (by decide)
  · exact h.1.2 { message := "boom" } (by decide)

/-- The nested member/url loops of `try_connect` scan the flat candidate
list: one member's urls, then the rest. -/
theorem firstConn_append_urls {H : Type} (net : Net H) (ms : List Member)
    (urls rest : List String) :
    firstConn net ms (urls ++ rest) =
      (match try_urls net urls with
       | some r => r
       | none => firstConn net ms rest) := by
  induction urls with
  | nil => simp [try_urls]
  | cons ep t ih =>
    simp only [List.cons_append, firstConn, try_urls]
    cases hc : connect net ep with
    | ok c => simp
    | err e => simp [ih]
    | panicked => simp

/-- `try_connect`'s nested loops equal a single scan of the flattened
candidate-address list. -/
theorem try_connect_go_flat {H : Type} (net : Net H) (ms : List Member)
    (indexes : List Nat) :
    try_connect_go net ms indexes = firstConn net ms (memberUrls ms indexes) := by
  induction indexes with
  | nil => simp [try_connect_go, memberUrls, firstConn]
  | cons i rest ih =>
    simp only [try_connect_go, memberUrls, List.flatMap_cons]
    rw [firstConn_append_urls]
    cases try_urls net (ms.getD i { peer_urls := [] }).peer_urls with
    | some r => rfl
    | none => simpa [memberUrls] using ih

/-- If every candidate address fails to connect, the flat scan returns the
failure carrying the member list. -/
theorem firstConn_all_err {H : Type} (net : Net H) (ms : List Member)
    (urls : List String) (h : ∀ ep ∈ urls, ∃ e, connect net ep = .err e) :
    firstConn net ms urls = .fail ms := by
  induction urls with
  | nil => rfl
  | cons ep t ih =>
    obtain ⟨e, he⟩ := h ep (List.mem_cons_self ep t)
    simp only [firstConn, he]
    exact ih (fun x hx => h x (List.mem_cons_of_mem _ hx))

/-- A successful flat scan returns the first (hence some) successful
connection among the candidates. -/
theorem firstConn_ok_mem {H : Type} (net : Net H) (ms : List Member)
    (urls : List String) (c : H) (h : firstConn net ms urls = .ok c) :
    ∃ ep ∈ urls, connect net ep = .ok c := by
  induction urls with
  | nil => simp [firstConn] at h
  | cons ep t ih =>
    simp only [firstConn] at h
    cases hc : connect net ep with
    | ok c2 =>
      rw [hc] at h
      simp only at h
      cases h
      exact ⟨ep, List.mem_cons_self ep t, hc⟩
    | err e =>
      rw [hc] at h
      simp only at h
      obtain ⟨x, hx, hcx⟩ := ih h
      exact ⟨x, List.mem_cons_of_mem _ hx, hcx⟩
    | panicked =>
      rw [hc] at h
      simp at h

/-- **C5**: for any shuffled ordering (any permutation of the member-index
range), `try_connect` scans the members in that order trying each member's
advertised addresses in listed order and returns the first successful
connection; a returned handle always comes from some member's advertised
address; and if every member/address combination fails with a transport
error, it returns the failure carrying the snapshot's member list. -/
theorem claim5_thm {H : Type} (net : Net H) (resp : GetMembersResponse)
    (indexes : List Nat)
    (hperm : indexes.Perm (List.range resp.members.length)) :
    try_connect net resp indexes =
      firstConn net resp.members (memberUrls resp.members indexes) ∧
    (∀ c, try_connect net resp indexes = .ok c →
      ∃ ep, (∃ m ∈ resp.members, ep ∈ m.peer_urls) ∧ connect net ep = .ok c) ∧
    ((∀ m ∈ resp.members, ∀ ep ∈ m.peer_urls, ∃ e, connect net ep = .err e) →
      try_connect net resp indexes = .fail resp.members) := by
  have hflat : try_connect net resp indexes =
      firstConn net resp.members (memberUrls resp.members indexes) := by
    unfold try_connect
    exact try_connect_go_flat net resp.members indexes
  have hmem : ∀ ep ∈ memberUrls resp.members indexes,
      ∃ m ∈ resp.members, ep ∈ m.peer_urls := by
    intro ep hep
    simp only [memberUrls, List.mem_flatMap] at hep
    obtain ⟨i, hi, hepi⟩ := hep
    have hlt : i < resp.members.length :=
      List.mem_range.mp (hperm.mem_iff.mp hi)
    refine ⟨resp.members[i], List.getElem_mem hlt, ?_⟩
    rwa [List.getD_eq_getElem?_getD, List.getElem?_eq_getElem hlt] at hepi
  refine ⟨hflat, ?_, ?_⟩
  · intro c hc
    rw [hflat] at hc
    obtain ⟨ep, hep, hconn⟩ := firstConn_ok_mem net resp.members _ c hc
    exact ⟨ep, hmem ep hep, hconn⟩
  · intro hall
    rw [hflat]
    refine firstConn_all_err net resp.members _ ?_
    intro ep hep
    obtain ⟨m, hm, hepm⟩ := hmem ep hep
    exact hall m hm ep hepm

/-- Witness for `claim5_thm`: a one-member snapshot whose only address is
unreachable — failover fails carrying the member list. -/
theorem claim5_witness :
    try_connect net5 resp5 [0] = .fail [{ peer_urls := ["a:1"] }] := by
  refine (claim5_thm net5 resp5 [0] (by decide)).2.2 ?_
  intro m hm ep hep
  simp only [resp5, List.mem_singleton] at hm
  subst hm
  simp only [List.mem_singleton] at hep
  subst hep
  exact ⟨"down", by decide⟩

/-- **C6** (amended): on an address that parses — a host piece and a second
colon-separated piece parsing as a 16-bit port — `connect` performs exactly
one connection attempt and returns either a handle or a connect failure;
but on an address with no colon, or with an unparsable or out-of-range
port, it panics (the source's `unwrap` calls) before attempting any
connection, rather than returning a failure value. -/
theorem claim6_thm {H : Type} (net : Net H) (addr : String) :
    (connectT net addr).2.length ≤ 1 ∧
    (parseAddr addr = none → connectT net addr = (.panicked, [])) ∧
    (∀ host port, parseAddr addr = some (host, port) →
      (connectT net addr).2 = [.connectAttempt addr] ∧
      (∀ c, net.connect host port = .ok c → connect net addr = .ok c) ∧
      (∀ e, net.connect host port = .error e → connect net addr = .err e)) := by
  refine ⟨?_, ?_, ?_⟩
  · cases hp : parseAddr addr with
    | none => simp [connectT_parse_none net addr hp]
    | some pr =>
      obtain ⟨host, port⟩ := pr
      cases hc : net.connect host port with
      | ok c => simp [connectT_parse_ok net addr host port c hp hc]
      | error e => simp [connectT_parse_err net addr host port e hp hc]
  · intro hp
    exact connectT_parse_none net addr hp
  · intro host port hp
    refine ⟨?_, ?_, ?_⟩
    · cases hc : net.connect host port with
      | ok c => simp [connectT_parse_ok net addr host port c hp hc]
      | error e => simp [connectT_parse_err net addr host port e hp hc]
    · intro c hc
      simp [connect, connectT_parse_ok net addr host port c hp hc]
    · intro e hc
      simp [connect, connectT_parse_err net addr host port e hp hc]

/-- **C6** counterexample: `connect` is not total over arbitrary address
strings — on `localhost` (no colon), an out-of-range port, or a non-numeric
port it panics instead of returning a handle or a connect failure, even
though the modelled transport never fails; a well-formed address works. -/
theorem claim6_counterexample :
    connect netU "localhost" = .panicked ∧
    connect netU "10.0.0.1:70000" = .panicked ∧
    connect netU "10.0.0.1:x" = .panicked ∧
    connect netU "10.0.0.1:2379" = .ok () := by
  exact ⟨by decide, by decide, by decide, by decide⟩

/-- Witness for `claim6_thm` at a well-formed and a malformed address. -/
theorem claim6_witness :
    (connectT netU "a:1").2.length ≤ 1 ∧
    connectT netU "localhost" = (.panicked, []) := by
  exact ⟨(claim6_thm netU "a:1").1, (claim6_thm netU "localhost").2.1 (by decide)⟩

theorem firstSome_none_right {α : Type} (o : Option α) : firstSome o none = o := by
  cases o <;> rfl

theorem firstSome_some_absorb {α : Type} (o : Option α) (v : α) (o' : Option α) :
    firstSome (firstSome o (some v)) o' = firstSome o (some v) := by
  cases o <;> rfl

/-- A connect-failed endpoint contributes no success. -/
theorem successes_cons_connerr {H : Type} (net : Net H) (ep : String)
    (rest : List String) (e : String) (hc : connect net ep = .err e) :
    successes net (ep :: rest) = successes net rest := by
  simp [successes, List.filterMap_cons, hc]

/-- A GetMembers-failed endpoint contributes no success. -/
theorem successes_cons_memerr {H : Type} (net : Net H) (ep : String)
    (rest : List String) (client : H) (e : String)
    (hc : connect net ep = .ok client) (hgm : net.getMembers client = .error e) :
    successes net (ep :: rest) = successes net rest := by
  simp [successes, List.filterMap_cons, hc, hgm]

/-- A fully successful endpoint heads the success list. -/
theorem successes_cons_ok {H : Type} (net : Net H) (ep : String)
    (rest : List String) (client : H) (resp : GetMembersResponse)
    (hc : connect net ep = .ok client) (hgm : net.getMembers client = .ok resp) :
    successes net (ep :: rest) = (client, resp) :: successes net rest := by
  simp [successes, List.filterMap_cons, hc, hgm]

/-- Probe trace of an endpoint whose connection fails. -/
theorem epTrace_connerr {H : Type} (net : Net H) (ep : String) (e : String)
    (evs : List IoEvent) (hct : connectT net ep = (.err e, evs)) :
    epTrace net ep = evs := by
  simp [epTrace, hct]

/-- Probe trace of an endpoint whose connection succeeds. -/
theorem epTrace_ok {H : Type} (net : Net H) (ep : String) (c : H)
    (evs : List IoEvent) (hct : connectT net ep = (.ok c, evs)) :
    epTrace net ep = evs ++ [.getMembersCall ep] := by
  simp [epTrace, hct]

/-- Complete characterization of a duplicate-free, panic-free,
id-consistent pass of the discovery loop: it always completes, every
processed endpoint ends up in the seen set, the retained client and
response are the first success (if any), the sampled id is the first
success's id, and the trace is the concatenation of the per-endpoint probe
traces in input order. -/
theorem scan_characterize {H : Type} (net : Net H) (eps : List String) :
    ∀ (st : DiscState H),
    eps.Nodup →
    (∀ ep ∈ eps, ep ∉ st.seen) →
    (∀ ep ∈ eps, (connectT net ep).1 ≠ .panicked) →
    (∀ x ∈ successes net eps, st.cid = none ∨ st.cid = some x.2.header.cluster_id) →
    (∀ x ∈ successes net eps, ∀ y ∈ successes net eps,
      x.2.header.cluster_id = y.2.header.cluster_id) →
    scan net eps st = .ok
      { seen := eps.reverse ++ st.seen,
        pd := firstSome st.pd ((successes net eps).head?.map Prod.fst),
        mem := firstSome st.mem ((successes net eps).head?.map Prod.snd),
        cid := firstSome st.cid
          ((successes net eps).head?.map (fun x => x.2.header.cluster_id)),
        trace := st.trace ++ eps.flatMap (epTrace net) } := by
  induction eps with
  | nil =>
    intro st _ _ _ _ _
    simp [scan, successes, firstSome_none_right]
  | cons ep rest ih =>
    intro st h1 h2 h3 h4 h5
    have hsin : ep ∉ st.seen := h2 ep (List.mem_cons_self ep rest)
    obtain ⟨hnotin, hnodup⟩ := List.nodup_cons.mp h1
    have h3' : ∀ x ∈ rest, (connectT net x).1 ≠ .panicked :=
      fun x hx => h3 x (List.mem_cons_of_mem _ hx)
    have h2' : ∀ x ∈ rest, x ∉ ep :: st.seen := by
      intro x hx hmem
      rcases List.mem_cons.mp hmem with rfl | hmem2
      · exact hnotin hx
      · exact h2 x (List.mem_cons_of_mem _ hx) hmem2
    cases hct : connectT net ep with
    | mk o evs =>
      cases o with
      | panicked =>
        exact absurd (by rw [hct]) (h3 ep (List.mem_cons_self ep rest))
      | err e =>
        have hco : connect net ep = .err e := by simp [connect, hct]
        have hsucc := successes_cons_connerr net ep rest e hco
        have h4' : ∀ x ∈ successes net rest,
            st.cid = none ∨ st.cid = some x.2.header.cluster_id :=
          fun x hx => h4 x (by rw [hsucc]; exact hx)
        have h5' : ∀ x ∈ successes net rest, ∀ y ∈ successes net rest,
            x.2.header.cluster_id = y.2.header.cluster_id :=
          fun x hx y hy =>
            h5 x (by rw [hsucc]; exact hx) y (by rw [hsucc]; exact hy)
        rw [scan_cons_connerr net ep rest st e evs hsin hct,
          ih { st with seen := ep :: st.seen, trace := st.trace ++ evs }
            hnodup h2' h3' h4' h5']
        simp [hsucc, epTrace_connerr net ep e evs hct, List.append_assoc]
      | ok client =>
        have hco : connect net ep = .ok client := by simp [connect, hct]
        cases hgm : net.getMembers client with
        | error e =>
          have hsucc := successes_cons_memerr net ep rest client e hco hgm
          have h4' : ∀ x ∈ successes net rest,
              st.cid = none ∨ st.cid = some x.2.header.cluster_id :=
            fun x hx => h4 x (by rw [hsucc]; exact hx)
          have h5' : ∀ x ∈ successes net rest, ∀ y ∈ successes net rest,
              x.2.header.cluster_id = y.2.header.cluster_id :=
            fun x hx y hy =>
              h5 x (by rw [hsucc]; exact hx) y (by rw [hsucc]; exact hy)
          rw [scan_cons_memerr net ep rest st client e evs hsin hct hgm,
            ih { st with seen := ep :: st.seen,
                         trace := st.trace ++ evs ++ [.getMembersCall ep] }
              hnodup h2' h3' h4' h5']
          simp [hsucc, epTrace_ok net ep client evs hct, List.append_assoc]
        | ok resp =>
          have hsucc := successes_cons_ok net ep rest client resp hco hgm
          have hin : (client, resp) ∈ successes net (ep :: rest) := by
            rw [hsucc]; exact List.mem_cons_self _ _
          have h4' : ∀ x ∈ successes net rest,
              st.cid = none ∨ st.cid = some x.2.header.cluster_id :=
            fun x hx => h4 x (by rw [hsucc]; exact List.mem_cons_of_mem _ hx)
          have h5' : ∀ x ∈ successes net rest, ∀ y ∈ successes net rest,
              x.2.header.cluster_id = y.2.header.cluster_id :=
            fun x hx y hy =>
              h5 x (by rw [hsucc]; exact List.mem_cons_of_mem _ hx) y
                (by rw [hsucc]; exact List.mem_cons_of_mem _ hy)
          cases hcid : st.cid with
          | none =>
            have h4r : ∀ x ∈ successes net rest,
                some resp.header.cluster_id = none ∨
                some resp.header.cluster_id = some x.2.header.cluster_id := by
              intro x hx
              right
              have := h5 (client, resp) hin x
                (by rw [hsucc]; exact List.mem_cons_of_mem _ hx)
              rw [this]
            rw [scan_cons_first net ep rest st client resp evs hsin hct hgm hcid,
              ih { st with seen := ep :: st.seen,
                           trace := st.trace ++ evs ++ [.getMembersCall ep],
                           cid := some resp.header.cluster_id,
                           pd := firstSome st.pd (some client),
                           mem := firstSome st.mem (some resp) }
                hnodup h2' h3' h4r h5']
            simp [hsucc, epTrace_ok net ep client evs hct, List.append_assoc,
              hcid, firstSome_some_absorb, firstSome_none, firstSome_some]
          | some s =>
            have hs : s = resp.header.cluster_id := by
              rcases h4 _ hin with h | h
              · rw [hcid] at h; cases h
              · rw [hcid] at h; injection h
            rw [scan_cons_agree net ep rest st client resp s evs hsin hct hgm
              hcid hs,
              ih { st with seen := ep :: st.seen,
                           trace := st.trace ++ evs ++ [.getMembersCall ep],
                           pd := firstSome st.pd (some client),
                           mem := firstSome st.mem (some resp) }
                hnodup h2' h3' h4' h5']
            simp [hsucc, epTrace_ok net ep client evs hct, List.append_assoc,
              hcid, firstSome_some_absorb, firstSome_some]

/-- **C7**: on a duplicate-free address list (no panics, all successful
probes agreeing on the cluster id), discovery iterates the addresses in
input order, skips — rather than fails on — every endpoint whose connect
or GetMembers call fails, and returns precisely the first successful
(connection, membership response) pair; it succeeds if and only if at least
one probe fully succeeded, and otherwise fails with the no-reachable-
endpoint error `PD cluster failed to respond`. -/
theorem claim7_thm {H : Type} (net : Net H) (eps : List String) (s : Nat)
    (hnd : eps.Nodup)
    (hnp : ∀ ep ∈ eps, (connectT net ep).1 ≠ .panicked)
    (hcid : ∀ x ∈ successes net eps, x.2.header.cluster_id = s) :
    (validate_endpointsT net eps).1 =
      (match (successes net eps).head? with
       | some x => .ok x
       | none =>
         .err (if eps.isEmpty then "empty PD endpoints"
               else "PD cluster failed to respond")) := by
  cases eps with
  | nil => simp [validate_endpointsT, successes]
  | cons a l =>
    have hsc := scan_characterize net (a :: l) ⟨[], none, none, none, []⟩ hnd
      (by intro x hx; simp) hnp
      (by intro x hx; left; rfl)
      (by intro x hx y hy; rw [hcid x hx, hcid y hy])
    have hne : (a :: l) ≠ ([] : List String) := by simp
    rw [validate_of_scan_ok net (a :: l) _ hne hsc]
    cases hh : (successes net (a :: l)).head? with
    | none => simp [hh, firstSome_none]
    | some x =>
      obtain ⟨c, m⟩ := x
      simp [hh, firstSome_none]

/-- Witness for `claim7_thm`: first endpoint down and skipped, second
reachable — discovery succeeds with the second endpoint's handle and
response. -/
theorem claim7_witness :
    (validate_endpointsT net7 ["a:1", "b:2"]).1 =
      .ok (2, { header := { cluster_id := 7 } }) := by
  have h := claim7_thm net7 ["a:1", "b:2"] 7 (by decide) (by decide) (by decide)
  exact h.trans (by decide)

/-- **C8**: `get_region_by_id`, on a successful round-trip whose header
carries no error, returns `none` — no value, not an error — exactly when
the response's has-region flag is absent, and `some region` with the
response's region payload when the flag is present. -/
theorem claim8_thm {H : Type} (cl : RpcClient H)
    (call : Nat → H → GetRegionByIDRequest → Except String GetRegionByIDResponse)
    (nets : Nat → Net H) (perms : Nat → List Nat) (rid : Nat)
    (resp : GetRegionByIDResponse)
    (hdr : (do_requestT cl nets perms
      (fun k h => call k h (get_region_by_id_req cl rid))).1 = .ok resp)
    (hclean : resp.header.error = none) :
    (resp.region = none → resp.has_region = false ∧
      (get_region_by_idT cl call nets perms rid).1 = .ok none) ∧
    (∀ r, resp.region = some r → resp.has_region = true ∧
      (get_region_by_idT cl call nets perms rid).1 = .ok (some r)) := by
  constructor
  · intro hr
    constructor
    · simp [GetRegionByIDResponse.has_region, hr]
    · simp [get_region_by_idT, hdr, facadeStep, check_resp_header, hclean,
        GetRegionByIDResponse.has_region, GetRegionByIDResponse.take_region, hr]
  · intro r hr
    constructor
    · simp [GetRegionByIDResponse.has_region, hr]
    · simp [get_region_by_idT, hdr, facadeStep, check_resp_header, hclean,
        GetRegionByIDResponse.has_region, GetRegionByIDResponse.take_region, hr]

/-- Witness for `claim8_thm`: fetching region 42 from a backend with no
such region yields `none`, not an error. -/
theorem claim8_witness :
    (get_region_by_idT clU callRegionByIdNone (fun _ => netU) (fun _ => []) 42).1 =
      .ok none := by
  exact ((claim8_thm clU callRegionByIdNone (fun _ => netU) (fun _ => []) 42
    { header := { cluster_id := 7 } } (by decide) (by decide)).1 (by decide)).2

/-- **C9**: every modelled façade operation stamps its outgoing request
header with the cluster id recorded in the construction-time membership
snapshot — forcibly overwriting the stamped header with that recorded id
changes nothing — and `get_cluster_id` returns exactly that id.  The
snapshot itself is immutable in the model (`RpcClient.members` is never
written after construction), so the id is never updated from any later
response. -/
theorem claim9_thm {H : Type} (cl : RpcClient H)
    (callS : Nat → H → GetStoreRequest → Except String GetStoreResponse)
    (callR : Nat → H → GetRegionRequest → Except String GetRegionResponse)
    (callI : Nat → H → GetRegionByIDRequest → Except String GetRegionByIDResponse)
    (nets : Nat → Net H) (perms : Nat → List Nat) (sid rid : Nat)
    (key : List Nat) :
    (cl.header).cluster_id = cl.members.header.cluster_id ∧
    (get_store_req cl sid).header = cl.header ∧
    (get_region_req cl key).header = cl.header ∧
    (get_region_by_id_req cl rid).header = cl.header ∧
    get_storeT cl callS nets perms sid =
      get_storeT cl (fun k h r => callS k h
        { r with header := { cluster_id := cl.members.header.cluster_id } })
        nets perms sid ∧
    get_regionT cl callR nets perms key =
      get_regionT cl (fun k h r => callR k h
        { r with header := { cluster_id := cl.members.header.cluster_id } })
        nets perms key ∧
    get_region_by_idT cl callI nets perms rid =
      get_region_by_idT cl (fun k h r => callI k h
        { r with header := { cluster_id := cl.members.header.cluster_id } })
        nets perms rid ∧
    get_cluster_id cl = .ok cl.members.header.cluster_id :=
  ⟨rfl, rfl, rfl, rfl, rfl, rfl, rfl, rfl⟩

/-- **C10**: `get_region`, on a successful round-trip whose header carries
no error, unconditionally returns the response's region field as payload —
the default (empty) region when the field is absent — and never a
`none`-style not-found result (its payload type is a plain region). -/
theorem claim10_thm {H : Type} (cl : RpcClient H)
    (call : Nat → H → GetRegionRequest → Except String GetRegionResponse)
    (nets : Nat → Net H) (perms : Nat → List Nat) (key : List Nat)
    (resp : GetRegionResponse)
    (hdr : (do_requestT cl nets perms
      (fun k h => call k h (get_region_req cl key))).1 = .ok resp)
    (hclean : resp.header.error = none) :
    (get_regionT cl call nets perms key).1 = .ok resp.take_region ∧
    (resp.region = none →
      (get_regionT cl call nets perms key).1 = .ok ({} : Region)) ∧
    (∀ r, resp.region = some r →
      (get_regionT cl call nets perms key).1 = .ok r) := by
  have hmain : (get_regionT cl call nets perms key).1 = .ok resp.take_region := by
    simp [get_regionT, hdr, facadeStep, check_resp_header, hclean]
  refine ⟨hmain, ?_, ?_⟩
  · intro hr
    rw [hmain]
    simp [GetRegionResponse.take_region, hr]
  · intro r hr
    rw [hmain]
    simp [GetRegionResponse.take_region, hr]

/-- Witness for `claim10_thm`: a backend with no matching region — the
caller still gets a (default) region payload, never a none-result. -/
theorem claim10_witness :
    (get_regionT clU callRegionNone (fun _ => netU) (fun _ => []) [1, 2]).1 =
      .ok ({} : Region) := by
  exact (claim10_thm clU callRegionNone (fun _ => netU) (fun _ => []) [1, 2]
    { header := { cluster_id := 7 } } (by decide) (by decide)).2.1 (by decide)
